import Mathlib

/-!
# Verification of the Karabiner-Elements grabber core

Shallow embedding of the three source files

* `src/core/grabber/include/receiver.hpp` — the connection coordinator:
  datagram dispatch loop, size validation, device grab/ungrab lifecycle,
  console-user-server process monitoring, teardown;
* `src/share/configuration_core.hpp` — the profile store: profile
  selection, key-name resolution, save/load round-trip;
* `src/share/grabber_client.hpp` — the client stub marshalling calls
  into wire messages.

The wire-format struct layouts and the key-code vocabulary live in
`types.hpp`, which is not part of the shown sources; those parts are
modelled from the spec (fixed compile-time sizes, a 1-byte discriminant,
a fixed name→code lookup) and are marked as such below.
-/

namespace Krbn

/-! ## Wire protocol

`krbn::operation_type` is a 1-byte discriminant read from `buffer_[0]`.
The numeric values are modelled from the spec (§4.1 lists the
discriminants in order); only their distinctness matters to the
dispatch logic. -/

/-- Modelled from the spec: the `krbn::operation_type` discriminant values of
`types.hpp` (not under `src/`); a 1-byte code, one per operation, in the
order the spec lists them. -/
def op_connect : Nat := 1
def op_system_preferences_values_updated : Nat := 2
def op_set_caps_lock_led_state : Nat := 3
def op_clear_simple_modifications : Nat := 4
def op_add_simple_modification : Nat := 5
def op_clear_fn_function_keys : Nat := 6
def op_add_fn_function_key : Nat := 7
def op_clear_standalone_modifiers : Nat := 8
def op_add_standalone_modifier : Nat := 9

/-- Modelled from the spec: `krbn::connect_from` values (`types.hpp`, not
under `src/`): `event_dispatcher` and `console_user_server`. -/
def cf_event_dispatcher : Nat := 0
def cf_console_user_server : Nat := 1

/-- Modelled from the spec: `sizeof` of the fixed-layout operation structs of
`types.hpp` (not under `src/`).  The spec (§3) fixes each payload size at
compile time; the exact byte counts are not given, so plausible packed sizes
are used (1-byte discriminant, 1-byte enums/booleans, 4-byte pid and key
codes, an opaque preference blob).  The dispatch logic compares the received
length against these constants; no theorem below depends on the particular
values, only on their being fixed and at least 1. -/
def sizeof_connect_struct : Nat := 6
def sizeof_system_preferences_values_updated_struct : Nat := 5
def sizeof_set_caps_lock_led_state_struct : Nat := 2
def sizeof_clear_simple_modifications_struct : Nat := 1
def sizeof_add_simple_modification_struct : Nat := 9
def sizeof_clear_fn_function_keys_struct : Nat := 1
def sizeof_add_fn_function_key_struct : Nat := 9
def sizeof_clear_standalone_modifiers_struct : Nat := 1
def sizeof_add_standalone_modifier_struct : Nat := 9

/-- A received datagram, as the worker sees it: `n` is the number of bytes
returned by `server_->receive`, `opcode` is the value of `buffer_[0]`
(meaningful only when `0 < n`), and the remaining fields are the values the
`reinterpret_cast`ed struct fields would read from the buffer.  Carrying the
fields alongside the raw length lets the theorems show exactly when the
dispatch consults them. -/
structure Datagram where
  n : Nat
  opcode : Nat
  connect_from : Nat := 0
  pid : Nat := 0
  values : Nat := 0
  led_state : Bool := false
  from_key_code : Nat := 0
  to_key_code : Nat := 0
  deriving Repr, DecidableEq

/-! ## Collaborator state

`event_manipulator`, `device_grabber` and `process_monitor` are external
collaborators (their headers are not under `src/`); the receiver calls a
small set of their methods.  Their state is modelled from the spec:
three rule tables cleared/appended by the `clear_*`/`add_*` operations
(§3, §4.4), a preference blob, a dispatcher-connectivity flag, a
grab/ungrab flag, and a liveness monitor holding one (pid, one-shot
callback) pair (§4.3, §3).  Call counters record how often
`grab_devices`/`ungrab_devices` were invoked, so "exactly once" claims are
statable. -/

structure EventManipulatorState where
  simple_modifications : List (Nat × Nat) := []
  fn_function_keys : List (Nat × Nat) := []
  standalone_modifiers : List (Nat × Nat) := []
  system_preferences_values : Option Nat := none
  event_dispatcher_client : Bool := false
  deriving Repr, DecidableEq

structure DeviceGrabberState where
  grabbed : Bool := false
  grab_count : Nat := 0
  ungrab_count : Nat := 0
  caps_lock_led : Option Bool := none
  deriving Repr, DecidableEq

/-- Modelled from the spec: a `process_monitor` instance (§4.3) owns one
target pid and a one-shot callback; `fired` records that the callback has
already been invoked, after which the monitor is inert.  Destruction of the
instance (the receiver overwriting the `unique_ptr`) discards this state
entirely, so a destroyed monitor can never fire. -/
structure ProcessMonitorState where
  pid : Nat
  fired : Bool := false
  deriving Repr, DecidableEq

/-- The whole state the receiver can observe or mutate: the two
collaborators, the monitor slot, the listening endpoint's filesystem
presence, the dispatch loop / server liveness, and the error log. -/
structure ReceiverState where
  event_manipulator : EventManipulatorState := {}
  device_grabber : DeviceGrabberState := {}
  console_user_server_process_monitor : Option ProcessMonitorState := none
  socket_file_exists : Bool := true
  loop_running : Bool := true
  server_alive : Bool := true
  log : List String := []
  deriving Repr, DecidableEq

/-- State right after the `receiver` constructor ran: socket bound, worker
thread running, no monitor, nothing logged. -/
def initReceiverState : ReceiverState := {}

/-- `device_grabber_.grab_devices()`. -/
def grab_devices (s : ReceiverState) : ReceiverState :=
  { s with device_grabber :=
      { s.device_grabber with grabbed := true,
                              grab_count := s.device_grabber.grab_count + 1 } }

/-- `device_grabber_.ungrab_devices()`. -/
def ungrab_devices (s : ReceiverState) : ReceiverState :=
  { s with device_grabber :=
      { s.device_grabber with grabbed := false,
                              ungrab_count := s.device_grabber.ungrab_count + 1 } }

/-- `receiver::console_user_server_exit_callback`: the monitor's callback
just ungrabs the devices. -/
def console_user_server_exit_callback (s : ReceiverState) : ReceiverState :=
  ungrab_devices s

/-- `logger::get_logger().error(...)`. -/
def log_error (msg : String) (s : ReceiverState) : ReceiverState :=
  { s with log := s.log ++ [msg] }

/-! ## The dispatch of one received datagram (`receiver::worker` body)

Each `case` of the `switch` becomes one action function; `dispatch`
reproduces the control flow: the `n > 0` guard, the per-operation size
check (`!=` for `connect`, `<` for the other payload-bearing operations,
none for the `clear_*` operations), and the silently-ignored `default`. -/

/-- The `connect` case body: branch on `connect_from`; an unrecognized
`connect_from` value falls through the inner `switch` with no effect. -/
def apply_connect (d : Datagram) (s : ReceiverState) : ReceiverState :=
  if d.connect_from = cf_event_dispatcher then
    { s with event_manipulator :=
        { s.event_manipulator with event_dispatcher_client := true } }
  else if d.connect_from = cf_console_user_server then
    let s := grab_devices s
    -- monitor the last process: the previous unique_ptr is discarded,
    -- then a fresh monitor on d.pid is installed
    { s with console_user_server_process_monitor := some { pid := d.pid } }
  else
    s

def apply_system_preferences_values_updated (d : Datagram) (s : ReceiverState) :
    ReceiverState :=
  { s with event_manipulator :=
      { s.event_manipulator with system_preferences_values := some d.values } }

def apply_set_caps_lock_led_state (d : Datagram) (s : ReceiverState) : ReceiverState :=
  { s with device_grabber := { s.device_grabber with caps_lock_led := some d.led_state } }

def apply_clear_simple_modifications (s : ReceiverState) : ReceiverState :=
  { s with event_manipulator := { s.event_manipulator with simple_modifications := [] } }

def apply_add_simple_modification (d : Datagram) (s : ReceiverState) : ReceiverState :=
  { s with event_manipulator :=
      { s.event_manipulator with simple_modifications :=
          s.event_manipulator.simple_modifications ++ [(d.from_key_code, d.to_key_code)] } }

def apply_clear_fn_function_keys (s : ReceiverState) : ReceiverState :=
  { s with event_manipulator := { s.event_manipulator with fn_function_keys := [] } }

def apply_add_fn_function_key (d : Datagram) (s : ReceiverState) : ReceiverState :=
  { s with event_manipulator :=
      { s.event_manipulator with fn_function_keys :=
          s.event_manipulator.fn_function_keys ++ [(d.from_key_code, d.to_key_code)] } }

def apply_clear_standalone_modifiers (s : ReceiverState) : ReceiverState :=
  { s with event_manipulator := { s.event_manipulator with standalone_modifiers := [] } }

def apply_add_standalone_modifier (d : Datagram) (s : ReceiverState) : ReceiverState :=
  { s with event_manipulator :=
      { s.event_manipulator with standalone_modifiers :=
          s.event_manipulator.standalone_modifiers ++ [(d.from_key_code, d.to_key_code)] } }

/-- One iteration of the `receiver::worker` loop body on a successfully
received datagram: mirror of the `switch` in `receiver.hpp` lines 62-154,
including the `!ec && n > 0` guard. -/
def dispatch (s : ReceiverState) (d : Datagram) : ReceiverState :=
  if d.n = 0 then s
  else if d.opcode = op_connect then
    if d.n ≠ sizeof_connect_struct then
      log_error "invalid size for krbn::operation_type::connect" s
    else
      apply_connect d s
  else if d.opcode = op_system_preferences_values_updated then
    if d.n < sizeof_system_preferences_values_updated_struct then
      log_error "invalid size for krbn::operation_type::system_preferences_values_updated" s
    else
      apply_system_preferences_values_updated d s
  else if d.opcode = op_set_caps_lock_led_state then
    if d.n < sizeof_set_caps_lock_led_state_struct then
      log_error "invalid size for krbn::operation_type::set_caps_lock_led_state" s
    else
      apply_set_caps_lock_led_state d s
  else if d.opcode = op_clear_simple_modifications then
    apply_clear_simple_modifications s
  else if d.opcode = op_add_simple_modification then
    if d.n < sizeof_add_simple_modification_struct then
      log_error "invalid size for krbn::operation_type::add_simple_modification" s
    else
      apply_add_simple_modification d s
  else if d.opcode = op_clear_fn_function_keys then
    apply_clear_fn_function_keys s
  else if d.opcode = op_add_fn_function_key then
    if d.n < sizeof_add_fn_function_key_struct then
      log_error "invalid size for krbn::operation_type::add_fn_function_key" s
    else
      apply_add_fn_function_key d s
  else if d.opcode = op_clear_standalone_modifiers then
    apply_clear_standalone_modifiers s
  else if d.opcode = op_add_standalone_modifier then
    if d.n < sizeof_add_standalone_modifier_struct then
      log_error "invalid size for krbn::operation_type::add_standalone_modifier" s
    else
      apply_add_standalone_modifier d s
  else
    s

/-! ## Events

The receiver's state changes through two kinds of events: a datagram
arriving on the worker loop, and the process monitor observing that its
tracked process terminated (which invokes the one-shot callback). -/

inductive Event where
  | receive (d : Datagram)
  | process_terminated (pid : Nat)
  deriving Repr, DecidableEq

/-- Modelled from the spec for the `process_terminated` case: the
`process_monitor` (§4.3) invokes its callback exactly once, the first time
its tracked pid is observed absent, and is inert afterwards or once
destroyed.  A replaced monitor no longer exists, so a termination of its old
pid has no effect. -/
def step (s : ReceiverState) : Event → ReceiverState
  | .receive d => dispatch s d
  | .process_terminated p =>
      match s.console_user_server_process_monitor with
      | some m =>
          if m.pid = p ∧ m.fired = false then
            let s := console_user_server_exit_callback s
            { s with console_user_server_process_monitor := some { m with fired := true } }
          else s
      | none => s

def run (s : ReceiverState) (es : List Event) : ReceiverState :=
  es.foldl step s

/-- `receiver::~receiver`: unlink the socket, stop and join the worker
thread, drop the server and the monitor, ungrab the devices, clear all
three rule tables. -/
def receiver_teardown (s : ReceiverState) : ReceiverState :=
  let s := { s with socket_file_exists := false }
  let s := { s with loop_running := false }
  let s := { s with server_alive := false }
  let s := { s with console_user_server_process_monitor := none }
  let s := ungrab_devices s
  let s := apply_clear_simple_modifications s
  let s := apply_clear_fn_function_keys s
  let s := apply_clear_standalone_modifiers s
  s

/-- A well-formed console-user-server `connect` datagram carrying pid `p`,
exactly as `grabber_client::connect` emits it. -/
def connectDatagram (cf p : Nat) : Datagram :=
  { n := sizeof_connect_struct, opcode := op_connect, connect_from := cf, pid := p }

end Krbn

namespace Cfg

/-! ## `configuration_core` (src/share/configuration_core.hpp)

The profile store parses a persisted JSON document and exposes the selected
profile's rule tables.  JSON mechanics (`nlohmann::json`) are an external
collaborator; the spec (§6) fixes the document's shape — text, booleans,
objects and arrays only — so the JSON value type is modelled with exactly
those constructors. -/

/-- Modelled from the spec: the JSON values a persisted configuration
document is built from (§6: a `profiles` list of records with text names,
boolean `selected` flags and text→text mapping objects).  `null` is the
value a missed lookup and a failed/absent load yield (nlohmann's
default-constructed json).  Objects keep their members as an ordered
association list. -/
inductive Json where
  | null
  | bool (b : Bool)
  | str (s : String)
  | arr (elems : List Json)
  | obj (members : List (String × Json))
  deriving Repr, Inhabited

namespace Json

def isObject : Json → Bool
  | .obj _ => true
  | _ => false

def isArray : Json → Bool
  | .arr _ => true
  | _ => false

def lookupMember (k : String) : List (String × Json) → Json
  | [] => .null
  | (k', v) :: rest => if k' = k then v else lookupMember k rest

/-- `j[k]`: member access on an object, `null` on a missing key or a
non-object (nlohmann's non-throwing read of an absent member). -/
def get (j : Json) (k : String) : Json :=
  match j with
  | .obj members => lookupMember k members
  | _ => .null

/-- Modelled from the spec: the implicit boolean conversion applied by
`if (profile["selected"])`.  The spec's data model (§6) makes `selected` a
boolean, so the conversion yields that boolean; any other value counts as
not selected. -/
def truthy : Json → Bool
  | .bool b => b
  | _ => false

end Json

/-- Modelled from the spec: `krbn::types::get_key_code` (`types.hpp`, not
under `src/`) resolves a key name against a fixed key-code vocabulary,
returning nothing for an unknown name (§4.4).  The vocabulary holds the key
names the spec and the sources mention; the numeric codes are arbitrary
distinct values — no theorem depends on them. -/
def key_code_vocabulary : List (String × Nat) :=
  [("caps_lock", 57),
   ("delete_or_backspace", 42),
   ("escape", 41),
   ("spacebar", 44),
   ("f1", 58), ("f2", 59), ("f3", 60), ("f4", 61),
   ("f5", 62), ("f6", 63), ("f7", 64), ("f8", 65),
   ("f9", 66), ("f10", 67), ("f11", 68), ("f12", 69),
   ("mute", 127), ("volume_down", 129), ("volume_up", 128),
   ("vk_consumer_brightness_down", 1001),
   ("vk_consumer_brightness_up", 1002),
   ("vk_mission_control", 1003),
   ("vk_launchpad", 1004),
   ("vk_consumer_illumination_down", 1005),
   ("vk_consumer_illumination_up", 1006),
   ("vk_consumer_previous", 1007),
   ("vk_consumer_play", 1008),
   ("vk_consumer_next", 1009)]

def get_key_code (name : String) : Option Nat :=
  (key_code_vocabulary.find? (fun e => e.1 = name)).map (·.2)

/-- The in-memory profile store: `loaded_`, `json_` and `file_path_`. -/
structure ConfigurationCore where
  loaded : Bool
  json : Json
  file_path : String
  deriving Repr

/-- `configuration_core::get_default_profile`: the hard-coded default
profile, synthesized in memory. -/
def get_default_profile : Json :=
  .obj [("name", .str "Default profile"),
        ("selected", .bool true),
        ("simple_modifications", .obj []),
        ("fn_function_keys",
         .obj [("f1", .str "vk_consumer_brightness_down"),
               ("f2", .str "vk_consumer_brightness_up"),
               ("f3", .str "vk_mission_control"),
               ("f4", .str "vk_launchpad"),
               ("f5", .str "vk_consumer_illumination_down"),
               ("f6", .str "vk_consumer_illumination_up"),
               ("f7", .str "vk_consumer_previous"),
               ("f8", .str "vk_consumer_play"),
               ("f9", .str "vk_consumer_next"),
               ("f10", .str "mute"),
               ("f11", .str "volume_down"),
               ("f12", .str "volume_up")])]

/-- The `for (const auto& profile : json_["profiles"])` loop of
`get_current_profile`: first element that is an object with a truthy
`selected` member. -/
def find_selected_profile : List Json → Option Json
  | [] => none
  | p :: rest =>
      if p.isObject && (p.get ("selected")).truthy then some p
      else find_selected_profile rest

/-- `configuration_core::get_current_profile`. -/
def get_current_profile (c : ConfigurationCore) : Json :=
  if c.json.isObject && (c.json.get ("profiles")).isArray then
    match c.json.get ("profiles") with
    | .arr profiles =>
        match find_selected_profile profiles with
        | some p => p
        | none => get_default_profile
    | _ => get_default_profile
  else
    get_default_profile

def unknown_key_code_log (name file_path : String) : String :=
  "unknown key_code:" ++ name ++ " in " ++ file_path

/-- The member loop of `get_key_code_pair_from_json_object`: resolve both
names, log and `continue` past an unresolvable one, append the resolved
pair.  `it.value()` is converted to `std::string`; on a non-string value
that conversion throws out of the whole call, modelled by `none`. -/
def key_code_pairs_loop (file_path : String) :
    List (String × Json) → Option (List (Nat × Nat) × List String)
  | [] => some ([], [])
  | (from_name, value) :: rest =>
      match value with
      | .str to_name =>
          match get_key_code from_name with
          | none =>
              (key_code_pairs_loop file_path rest).map
                (fun r => (r.1, unknown_key_code_log from_name file_path :: r.2))
          | some from_key_code =>
              match get_key_code to_name with
              | none =>
                  (key_code_pairs_loop file_path rest).map
                    (fun r => (r.1, unknown_key_code_log to_name file_path :: r.2))
              | some to_key_code =>
                  (key_code_pairs_loop file_path rest).map
                    (fun r => ((from_key_code, to_key_code) :: r.1, r.2))
      | _ => none

/-- `configuration_core::get_key_code_pair_from_json_object`: the extracted
rule table together with the warnings it logged; a non-object argument
yields the empty table. -/
def get_key_code_pair_from_json_object (c : ConfigurationCore) (j : Json) :
    Option (List (Nat × Nat) × List String) :=
  match j with
  | .obj members => key_code_pairs_loop c.file_path members
  | _ => some ([], [])

/-- `configuration_core::get_current_profile_simple_modifications`. -/
def get_current_profile_simple_modifications (c : ConfigurationCore) :
    Option (List (Nat × Nat) × List String) :=
  get_key_code_pair_from_json_object c ((get_current_profile c).get ("simple_modifications"))

/-- `configuration_core::get_current_profile_fn_function_keys`: substitute
the whole default profile when the selected profile's `fn_function_keys`
member is not an object. -/
def get_current_profile_fn_function_keys (c : ConfigurationCore) :
    Option (List (Nat × Nat) × List String) :=
  let profile := get_current_profile c
  let profile :=
    if (profile.get ("fn_function_keys")).isObject then profile
    else get_default_profile
  get_key_code_pair_from_json_object c (profile.get ("fn_function_keys"))

/-- `configuration_core::get_current_profile_standalone_modifiers`. -/
def get_current_profile_standalone_modifiers (c : ConfigurationCore) :
    Option (List (Nat × Nat) × List String) :=
  get_key_code_pair_from_json_object c ((get_current_profile c).get ("standalone_modifiers"))

/-- The spec's selection rule, stated independently of the loop above:
the first profile in stored list order whose `selected` flag is true, if
the document is an object with a `profiles` array. -/
def spec_selected_profile (doc : Json) : Option Json :=
  if doc.isObject && (doc.get ("profiles")).isArray then
    match doc.get ("profiles") with
    | .arr profiles => profiles.find? (fun p => (p.get ("selected")).truthy)
    | _ => none
  else none

end Cfg

namespace Krbn

/-! ## `grabber_client` (src/share/grabber_client.hpp)

The client stub's public methods, and the datagram each `send_to` call
marshals.  `getpid()` is the caller's own process id, passed in as
`self_pid`. -/

inductive GrabberClientCall where
  | connect (connect_from : Nat)
  | system_preferences_values_updated (values : Nat)
  | clear_simple_modifications
  | add_simple_modification (from_key_code to_key_code : Nat)
  | clear_fn_function_keys
  | add_fn_function_key (from_key_code to_key_code : Nat)
  | clear_standalone_modifiers
  | add_standalone_modifier (from_key_code to_key_code : Nat)
  | set_caps_lock_led_state (led_state : Bool)
  deriving Repr, DecidableEq

/-- The datagram a `grabber_client` method sends: each method fills its
operation's struct (whose discriminant is fixed by the struct type) and
sends exactly `sizeof` bytes.  Only `connect` carries a pid, and it is
always `getpid()` — the `self_pid` of the calling process. -/
def grabber_client_send (self_pid : Nat) : GrabberClientCall → Datagram
  | .connect cf =>
      { n := sizeof_connect_struct, opcode := op_connect,
        connect_from := cf, pid := self_pid }
  | .system_preferences_values_updated v =>
      { n := sizeof_system_preferences_values_updated_struct,
        opcode := op_system_preferences_values_updated, values := v }
  | .clear_simple_modifications =>
      { n := sizeof_clear_simple_modifications_struct,
        opcode := op_clear_simple_modifications }
  | .add_simple_modification f t =>
      { n := sizeof_add_simple_modification_struct,
        opcode := op_add_simple_modification, from_key_code := f, to_key_code := t }
  | .clear_fn_function_keys =>
      { n := sizeof_clear_fn_function_keys_struct,
        opcode := op_clear_fn_function_keys }
  | .add_fn_function_key f t =>
      { n := sizeof_add_fn_function_key_struct,
        opcode := op_add_fn_function_key, from_key_code := f, to_key_code := t }
  | .clear_standalone_modifiers =>
      { n := sizeof_clear_standalone_modifiers_struct,
        opcode := op_clear_standalone_modifiers }
  | .add_standalone_modifier f t =>
      { n := sizeof_add_standalone_modifier_struct,
        opcode := op_add_standalone_modifier, from_key_code := f, to_key_code := t }
  | .set_caps_lock_led_state b =>
      { n := sizeof_set_caps_lock_led_state_struct,
        opcode := op_set_caps_lock_led_state, led_state := b }

end Krbn

namespace Cfg

/-! ## JSON text encoding and decoding

`configuration_core` parses its document with `nlohmann::json::parse` and
saves it with `output << std::setw(4) << json_ << std::endl` — a
pretty-printed rewrite with four-space indentation.  The codec itself is an
external collaborator (spec §1: "JSON file I/O mechanics (exposed as
load/save primitives)"); it is modelled here as an executable pretty
printer and a whitespace-tolerant recursive-descent parser over the
document values of `Json`. -/

def wsChar (c : Char) : Bool :=
  c = ' ' || c = '\n' || c = '\t' || c = '\r'

def spaces (n : Nat) : List Char :=
  List.replicate n ' '

/-- Escape a string body for output: a quote or a backslash gets a
backslash in front; other characters pass through. -/
def escapeChars : List Char → List Char
  | [] => []
  | c :: rest =>
      if c = '"' || c = '\\' then '\\' :: c :: escapeChars rest
      else c :: escapeChars rest

mutual

/-- Modelled from the spec: the pretty serializer behind
`operator<<(std::setw(4), json)` — four-space indentation, members as
`"key": value`, empty containers on one line. -/
def ppValue (ind : Nat) : Json → List Char
  | .null => ['n', 'u', 'l', 'l']
  | .bool false => ['f', 'a', 'l', 's', 'e']
  | .bool true => ['t', 'r', 'u', 'e']
  | .str s => '"' :: (escapeChars s.data ++ ['"'])
  | .arr [] => ['[', ']']
  | .arr (x :: xs) =>
      '[' :: '\n' :: (ppElems (ind + 4) x xs ++ '\n' :: (spaces ind ++ [']']))
  | .obj [] => ['{', '}']
  | .obj (m :: ms) =>
      '{' :: '\n' :: (ppMembers (ind + 4) m ms ++ '\n' :: (spaces ind ++ ['}']))
termination_by j => sizeOf j

/-- The comma-and-newline separated element list of a non-empty array. -/
def ppElems (ind : Nat) (x : Json) : List Json → List Char
  | [] => spaces ind ++ ppValue ind x
  | y :: ys => spaces ind ++ (ppValue ind x ++ ',' :: '\n' :: ppElems ind y ys)
termination_by ys => 1 + sizeOf x + sizeOf ys

/-- The comma-and-newline separated member list of a non-empty object. -/
def ppMembers (ind : Nat) (m : String × Json) : List (String × Json) → List Char
  | [] =>
      spaces ind ++ ('"' :: (escapeChars m.1.data ++ '"' :: ':' :: ' ' :: ppValue ind m.2))
  | y :: ys =>
      spaces ind ++ ('"' :: (escapeChars m.1.data ++ '"' :: ':' :: ' ' :: ppValue ind m.2))
        ++ ',' :: '\n' :: ppMembers ind y ys
termination_by ms => 1 + sizeOf m + sizeOf ms
decreasing_by
  all_goals simp_wf
  all_goals try obtain ⟨a, b⟩ := m
  all_goals simp_arith

end

mutual

/-- Fuel sufficient for the parser below to reconstruct a value: one unit
per parser recursion step. -/
def jsonFuel : Json → Nat
  | .null => 1
  | .bool _ => 1
  | .str _ => 1
  | .arr xs => 1 + elemsFuel xs
  | .obj ms => 1 + membersFuel ms

def elemsFuel : List Json → Nat
  | [] => 0
  | x :: xs => 1 + jsonFuel x + elemsFuel xs

def membersFuel : List (String × Json) → Nat
  | [] => 0
  | m :: ms => 1 + jsonFuel m.2 + membersFuel ms

end

/-- Drop leading whitespace. -/
def skipWs : List Char → List Char
  | [] => []
  | c :: rest => if wsChar c then skipWs rest else c :: rest

/-- Parse a string body up to the closing quote, undoing `escapeChars`:
a backslash makes the next character literal. -/
def parseStringBody : List Char → Option (List Char × List Char)
  | [] => none
  | c :: rest =>
      if c = '"' then some ([], rest)
      else if c = '\\' then
        match rest with
        | [] => none
        | c2 :: rest2 => (parseStringBody rest2).map (fun r => (c2 :: r.1, r.2))
      else (parseStringBody rest).map (fun r => (c :: r.1, r.2))

mutual

/-- Modelled from the spec: the document parser behind
`nlohmann::json::parse`, restricted to the document grammar of §6 (null,
booleans, strings, arrays, objects); recursive descent with explicit
fuel, skipping whitespace before every token. -/
def parseValue : Nat → List Char → Option (Json × List Char)
  | 0, _ => none
  | fuel + 1, l =>
      match skipWs l with
      | 'n' :: 'u' :: 'l' :: 'l' :: rest => some (.null, rest)
      | 't' :: 'r' :: 'u' :: 'e' :: rest => some (.bool true, rest)
      | 'f' :: 'a' :: 'l' :: 's' :: 'e' :: rest => some (.bool false, rest)
      | '"' :: rest =>
          (parseStringBody rest).map (fun r => (.str (String.mk r.1), r.2))
      | '[' :: rest =>
          match skipWs rest with
          | ']' :: rest' => some (.arr [], rest')
          | l' => (parseArrayElems fuel l').map (fun r => (.arr r.1, r.2))
      | '{' :: rest =>
          match skipWs rest with
          | '}' :: rest' => some (.obj [], rest')
          | l' => (parseObjectMembers fuel l').map (fun r => (.obj r.1, r.2))
      | _ => none

/-- The elements of a non-empty array, up to and past the closing
bracket. -/
def parseArrayElems : Nat → List Char → Option (List Json × List Char)
  | 0, _ => none
  | fuel + 1, l =>
      match parseValue fuel l with
      | none => none
      | some (j, rest) =>
          match skipWs rest with
          | ',' :: rest' =>
              (parseArrayElems fuel rest').map (fun r => (j :: r.1, r.2))
          | ']' :: rest' => some ([j], rest')
          | _ => none

/-- The members of a non-empty object, up to and past the closing
brace. -/
def parseObjectMembers : Nat → List Char → Option (List (String × Json) × List Char)
  | 0, _ => none
  | fuel + 1, l =>
      match skipWs l with
      | '"' :: rest =>
          match parseStringBody rest with
          | none => none
          | some (k, rest1) =>
              match skipWs rest1 with
              | ':' :: rest2 =>
                  match parseValue fuel rest2 with
                  | none => none
                  | some (v, rest3) =>
                      match skipWs rest3 with
                      | ',' :: rest4 =>
                          (parseObjectMembers fuel rest4).map
                            (fun r => ((String.mk k, v) :: r.1, r.2))
                      | '}' :: rest4 => some ([(String.mk k, v)], rest4)
                      | _ => none
              | _ => none
      | _ => none

end

/-- Parse a whole document: one value, then nothing but whitespace. -/
def parseJson (s : String) : Option Json :=
  match parseValue (s.data.length + 1) s.data with
  | some (j, rest) => if skipWs rest = [] then some j else none
  | none => none

/-- The exact text `configuration_core::save` writes: the pretty-printed
document and the `std::endl` newline. -/
def save_output (c : ConfigurationCore) : String :=
  String.mk (ppValue 0 c.json ++ ['\n'])

/-- The `configuration_core` constructor: read the file (absent: `content
= none`), parse it, set `loaded_` on success; on failure `json_` stays the
default-constructed (null) document. -/
def configuration_core_load (file_path : String) (content : Option String) :
    ConfigurationCore :=
  match content with
  | none => { loaded := false, json := .null, file_path := file_path }
  | some text =>
      match parseJson text with
      | some j => { loaded := true, json := j, file_path := file_path }
      | none => { loaded := false, json := .null, file_path := file_path }

end Cfg

namespace Krbn

/-! ## Derived validation vocabulary, for stating the dispatch claims -/

/-- The operation codes whose message carries a payload beyond the
discriminant. -/
def payload_bearing_op (op : Nat) : Bool :=
  op = op_connect ||
  op = op_system_preferences_values_updated ||
  op = op_set_caps_lock_led_state ||
  op = op_add_simple_modification ||
  op = op_add_fn_function_key ||
  op = op_add_standalone_modifier

/-- Every operation code the `switch` recognizes (everything else hits the
silent `default`). -/
def recognized_op (op : Nat) : Bool :=
  payload_bearing_op op ||
  op = op_clear_simple_modifications ||
  op = op_clear_fn_function_keys ||
  op = op_clear_standalone_modifiers

/-- The fixed struct size the worker compares a recognized operation's
datagram length against. -/
def struct_size (op : Nat) : Nat :=
  if op = op_connect then sizeof_connect_struct
  else if op = op_system_preferences_values_updated then
    sizeof_system_preferences_values_updated_struct
  else if op = op_set_caps_lock_led_state then sizeof_set_caps_lock_led_state_struct
  else if op = op_clear_simple_modifications then sizeof_clear_simple_modifications_struct
  else if op = op_add_simple_modification then sizeof_add_simple_modification_struct
  else if op = op_clear_fn_function_keys then sizeof_clear_fn_function_keys_struct
  else if op = op_add_fn_function_key then sizeof_add_fn_function_key_struct
  else if op = op_clear_standalone_modifiers then sizeof_clear_standalone_modifiers_struct
  else if op = op_add_standalone_modifier then sizeof_add_standalone_modifier_struct
  else 0

/-- The size-validation rule the worker actually applies to a
payload-bearing operation: exact equality for `connect`, a lower bound for
every other payload-bearing operation. -/
def size_accepted (op n : Nat) : Bool :=
  if op = op_connect then n = sizeof_connect_struct
  else struct_size op ≤ n

/-- The error text the worker logs on a failed size check. -/
def invalid_size_log (op : Nat) : String :=
  if op = op_connect then "invalid size for krbn::operation_type::connect"
  else if op = op_system_preferences_values_updated then
    "invalid size for krbn::operation_type::system_preferences_values_updated"
  else if op = op_set_caps_lock_led_state then
    "invalid size for krbn::operation_type::set_caps_lock_led_state"
  else if op = op_add_simple_modification then
    "invalid size for krbn::operation_type::add_simple_modification"
  else if op = op_add_fn_function_key then
    "invalid size for krbn::operation_type::add_fn_function_key"
  else if op = op_add_standalone_modifier then
    "invalid size for krbn::operation_type::add_standalone_modifier"
  else ""

/-- The payload interpretation a payload-bearing operation performs once
its size check passed. -/
def apply_payload_op (d : Datagram) (s : ReceiverState) : ReceiverState :=
  if d.opcode = op_connect then apply_connect d s
  else if d.opcode = op_system_preferences_values_updated then
    apply_system_preferences_values_updated d s
  else if d.opcode = op_set_caps_lock_led_state then apply_set_caps_lock_led_state d s
  else if d.opcode = op_add_simple_modification then apply_add_simple_modification d s
  else if d.opcode = op_add_fn_function_key then apply_add_fn_function_key d s
  else if d.opcode = op_add_standalone_modifier then apply_add_standalone_modifier d s
  else s

end Krbn

namespace Krbn

/-! ## Theorems about the receiver -/

/-- C1, counterexample: the claim requires every payload-bearing operation's
datagram length to equal its struct's exact size before the payload is
interpreted.  A `set_caps_lock_led_state` datagram one byte longer than the
struct fails that equality, yet the worker interprets it (the LED state is
forwarded to the device grabber) and logs no error: the code checks
`n < sizeof`, not `n != sizeof`, for every payload-bearing operation other
than `connect`. -/
theorem set_caps_lock_oversized_interpreted :
    (({ n := sizeof_set_caps_lock_led_state_struct + 1,
        opcode := op_set_caps_lock_led_state, led_state := true } : Datagram).n
        ≠ sizeof_set_caps_lock_led_state_struct) ∧
    payload_bearing_op op_set_caps_lock_led_state = true ∧
    (dispatch initReceiverState
        { n := sizeof_set_caps_lock_led_state_struct + 1,
          opcode := op_set_caps_lock_led_state,
          led_state := true }).device_grabber.caps_lock_led = some true ∧
    (dispatch initReceiverState
        { n := sizeof_set_caps_lock_led_state_struct + 1,
          opcode := op_set_caps_lock_led_state,
          led_state := true }).log = [] :=
  ⟨by decide, by decide, rfl, rfl⟩

/-- C1 (amended): for every payload-bearing operation the worker interprets
the payload exactly when the datagram length passes that operation's size
check — equality with the struct size for `connect`, at least the struct
size for the five other payload-bearing operations; a failed check logs an
error and drops the message uninterpreted. -/
theorem dispatch_size_validation (s : ReceiverState) (d : Datagram)
    (hn : 0 < d.n) (hp : payload_bearing_op d.opcode = true) :
    dispatch s d =
      if size_accepted d.opcode d.n then apply_payload_op d s
      else log_error (invalid_size_log d.opcode) s := by
  have hn' : ¬ d.n = 0 := by omega
  simp only [payload_bearing_op, Bool.or_eq_true, decide_eq_true_eq] at hp
  rcases hp with (((((h | h) | h) | h) | h) | h)
  · by_cases hs : d.n = 6 <;>
      simp [dispatch, size_accepted, apply_payload_op, invalid_size_log, struct_size,
        h, hs, hn', op_connect, op_system_preferences_values_updated,
        op_set_caps_lock_led_state, op_clear_simple_modifications,
        op_add_simple_modification, op_clear_fn_function_keys, op_add_fn_function_key,
        op_clear_standalone_modifiers, op_add_standalone_modifier,
        sizeof_connect_struct]
  · by_cases hs : d.n < 5
    all_goals first
      | have hs2 : ¬ 5 ≤ d.n := by omega
      | have hs2 : 5 ≤ d.n := by omega
    all_goals
      simp [dispatch, size_accepted, apply_payload_op, invalid_size_log, struct_size,
        h, hs, hs2, hn', op_connect, op_system_preferences_values_updated,
        sizeof_system_preferences_values_updated_struct]
  · by_cases hs : d.n < 2
    all_goals first
      | have hs2 : ¬ 2 ≤ d.n := by omega
      | have hs2 : 2 ≤ d.n := by omega
    all_goals
      simp [dispatch, size_accepted, apply_payload_op, invalid_size_log, struct_size,
        h, hs, hs2, hn', op_connect, op_system_preferences_values_updated,
        op_set_caps_lock_led_state, sizeof_set_caps_lock_led_state_struct]
  · by_cases hs : d.n < 9
    all_goals first
      | have hs2 : ¬ 9 ≤ d.n := by omega
      | have hs2 : 9 ≤ d.n := by omega
    all_goals
      simp [dispatch, size_accepted, apply_payload_op, invalid_size_log, struct_size,
        h, hs, hs2, hn', op_connect, op_system_preferences_values_updated,
        op_set_caps_lock_led_state, op_clear_simple_modifications,
        op_add_simple_modification, sizeof_add_simple_modification_struct]
  · by_cases hs : d.n < 9
    all_goals first
      | have hs2 : ¬ 9 ≤ d.n := by omega
      | have hs2 : 9 ≤ d.n := by omega
    all_goals
      simp [dispatch, size_accepted, apply_payload_op, invalid_size_log, struct_size,
        h, hs, hs2, hn', op_connect, op_system_preferences_values_updated,
        op_set_caps_lock_led_state, op_clear_simple_modifications,
        op_add_simple_modification, op_clear_fn_function_keys, op_add_fn_function_key,
        sizeof_add_fn_function_key_struct]
  · by_cases hs : d.n < 9
    all_goals first
      | have hs2 : ¬ 9 ≤ d.n := by omega
      | have hs2 : 9 ≤ d.n := by omega
    all_goals
      simp [dispatch, size_accepted, apply_payload_op, invalid_size_log, struct_size,
        h, hs, hs2, hn', op_connect, op_system_preferences_values_updated,
        op_set_caps_lock_led_state, op_clear_simple_modifications,
        op_add_simple_modification, op_clear_fn_function_keys, op_add_fn_function_key,
        op_clear_standalone_modifiers, op_add_standalone_modifier,
        sizeof_add_standalone_modifier_struct]

/-- C1 witness: a `connect` datagram of exactly the struct size is
interpreted, exercising the accepted branch of the size validation. -/
theorem dispatch_size_validation_witness :
    (0 : Nat) < 6 ∧
    payload_bearing_op op_connect = true ∧
    dispatch initReceiverState { n := 6, opcode := op_connect, connect_from := 1, pid := 55 } =
      (if size_accepted op_connect 6 then
        apply_payload_op { n := 6, opcode := op_connect, connect_from := 1, pid := 55 }
          initReceiverState
      else
        log_error (invalid_size_log op_connect) initReceiverState) :=
  ⟨by decide, by decide,
    dispatch_size_validation initReceiverState
      { n := 6, opcode := op_connect, connect_from := 1, pid := 55 } (by decide) (by decide)⟩

end Krbn

namespace Krbn

/-- C6: a datagram whose length is below the fixed struct size of its
recognized operation code is never interpreted: the rule tables, the device
state and the monitor are unchanged, and the only effect is one logged
error. -/
theorem dispatch_undersized_dropped (s : ReceiverState) (d : Datagram)
    (hn : 0 < d.n) (hr : recognized_op d.opcode = true)
    (hlt : d.n < struct_size d.opcode) :
    dispatch s d = log_error (invalid_size_log d.opcode) s ∧
    (dispatch s d).event_manipulator = s.event_manipulator ∧
    (dispatch s d).device_grabber = s.device_grabber ∧
    (dispatch s d).console_user_server_process_monitor =
      s.console_user_server_process_monitor ∧
    (dispatch s d).log = s.log ++ [invalid_size_log d.opcode] := by
  have hn' : ¬ d.n = 0 := by omega
  simp only [recognized_op, payload_bearing_op, Bool.or_eq_true, decide_eq_true_eq] at hr
  have hmain : dispatch s d = log_error (invalid_size_log d.opcode) s := by
    rcases hr with ((((((((h | h) | h) | h) | h) | h) | h) | h) | h)
    · simp [struct_size, h, op_connect, op_system_preferences_values_updated,
        op_set_caps_lock_led_state, op_clear_simple_modifications,
        op_add_simple_modification, op_clear_fn_function_keys, op_add_fn_function_key,
        op_clear_standalone_modifiers, op_add_standalone_modifier,
        sizeof_connect_struct, sizeof_system_preferences_values_updated_struct,
        sizeof_set_caps_lock_led_state_struct, sizeof_clear_simple_modifications_struct,
        sizeof_add_simple_modification_struct, sizeof_clear_fn_function_keys_struct,
        sizeof_add_fn_function_key_struct, sizeof_clear_standalone_modifiers_struct,
        sizeof_add_standalone_modifier_struct] at hlt
      have h6 : ¬ d.n = 6 := by omega
      simp [dispatch, invalid_size_log, h, h6, hn', op_connect, op_system_preferences_values_updated,
        op_set_caps_lock_led_state, op_clear_simple_modifications,
        op_add_simple_modification, op_clear_fn_function_keys, op_add_fn_function_key,
        op_clear_standalone_modifiers, op_add_standalone_modifier,
        sizeof_connect_struct, sizeof_system_preferences_values_updated_struct,
        sizeof_set_caps_lock_led_state_struct, sizeof_clear_simple_modifications_struct,
        sizeof_add_simple_modification_struct, sizeof_clear_fn_function_keys_struct,
        sizeof_add_fn_function_key_struct, sizeof_clear_standalone_modifiers_struct,
        sizeof_add_standalone_modifier_struct]
    · simp [struct_size, h, op_connect, op_system_preferences_values_updated,
        op_set_caps_lock_led_state, op_clear_simple_modifications,
        op_add_simple_modification, op_clear_fn_function_keys, op_add_fn_function_key,
        op_clear_standalone_modifiers, op_add_standalone_modifier,
        sizeof_connect_struct, sizeof_system_preferences_values_updated_struct,
        sizeof_set_caps_lock_led_state_struct, sizeof_clear_simple_modifications_struct,
        sizeof_add_simple_modification_struct, sizeof_clear_fn_function_keys_struct,
        sizeof_add_fn_function_key_struct, sizeof_clear_standalone_modifiers_struct,
        sizeof_add_standalone_modifier_struct] at hlt
      simp [dispatch, invalid_size_log, h, hlt, hn', op_connect, op_system_preferences_values_updated,
        op_set_caps_lock_led_state, op_clear_simple_modifications,
        op_add_simple_modification, op_clear_fn_function_keys, op_add_fn_function_key,
        op_clear_standalone_modifiers, op_add_standalone_modifier,
        sizeof_connect_struct, sizeof_system_preferences_values_updated_struct,
        sizeof_set_caps_lock_led_state_struct, sizeof_clear_simple_modifications_struct,
        sizeof_add_simple_modification_struct, sizeof_clear_fn_function_keys_struct,
        sizeof_add_fn_function_key_struct, sizeof_clear_standalone_modifiers_struct,
        sizeof_add_standalone_modifier_struct]
    · simp [struct_size, h, op_connect, op_system_preferences_values_updated,
        op_set_caps_lock_led_state, op_clear_simple_modifications,
        op_add_simple_modification, op_clear_fn_function_keys, op_add_fn_function_key,
        op_clear_standalone_modifiers, op_add_standalone_modifier,
        sizeof_connect_struct, sizeof_system_preferences_values_updated_struct,
        sizeof_set_caps_lock_led_state_struct, sizeof_clear_simple_modifications_struct,
        sizeof_add_simple_modification_struct, sizeof_clear_fn_function_keys_struct,
        sizeof_add_fn_function_key_struct, sizeof_clear_standalone_modifiers_struct,
        sizeof_add_standalone_modifier_struct] at hlt
      simp [dispatch, invalid_size_log, h, hlt, hn', op_connect, op_system_preferences_values_updated,
        op_set_caps_lock_led_state, op_clear_simple_modifications,
        op_add_simple_modification, op_clear_fn_function_keys, op_add_fn_function_key,
        op_clear_standalone_modifiers, op_add_standalone_modifier,
        sizeof_connect_struct, sizeof_system_preferences_values_updated_struct,
        sizeof_set_caps_lock_led_state_struct, sizeof_clear_simple_modifications_struct,
        sizeof_add_simple_modification_struct, sizeof_clear_fn_function_keys_struct,
        sizeof_add_fn_function_key_struct, sizeof_clear_standalone_modifiers_struct,
        sizeof_add_standalone_modifier_struct]
    · simp [struct_size, h, op_connect, op_system_preferences_values_updated,
        op_set_caps_lock_led_state, op_clear_simple_modifications,
        op_add_simple_modification, op_clear_fn_function_keys, op_add_fn_function_key,
        op_clear_standalone_modifiers, op_add_standalone_modifier,
        sizeof_connect_struct, sizeof_system_preferences_values_updated_struct,
        sizeof_set_caps_lock_led_state_struct, sizeof_clear_simple_modifications_struct,
        sizeof_add_simple_modification_struct, sizeof_clear_fn_function_keys_struct,
        sizeof_add_fn_function_key_struct, sizeof_clear_standalone_modifiers_struct,
        sizeof_add_standalone_modifier_struct] at hlt
      simp [dispatch, invalid_size_log, h, hlt, hn', op_connect, op_system_preferences_values_updated,
        op_set_caps_lock_led_state, op_clear_simple_modifications,
        op_add_simple_modification, op_clear_fn_function_keys, op_add_fn_function_key,
        op_clear_standalone_modifiers, op_add_standalone_modifier,
        sizeof_connect_struct, sizeof_system_preferences_values_updated_struct,
        sizeof_set_caps_lock_led_state_struct, sizeof_clear_simple_modifications_struct,
        sizeof_add_simple_modification_struct, sizeof_clear_fn_function_keys_struct,
        sizeof_add_fn_function_key_struct, sizeof_clear_standalone_modifiers_struct,
        sizeof_add_standalone_modifier_struct]
    · simp [struct_size, h, op_connect, op_system_preferences_values_updated,
        op_set_caps_lock_led_state, op_clear_simple_modifications,
        op_add_simple_modification, op_clear_fn_function_keys, op_add_fn_function_key,
        op_clear_standalone_modifiers, op_add_standalone_modifier,
        sizeof_connect_struct, sizeof_system_preferences_values_updated_struct,
        sizeof_set_caps_lock_led_state_struct, sizeof_clear_simple_modifications_struct,
        sizeof_add_simple_modification_struct, sizeof_clear_fn_function_keys_struct,
        sizeof_add_fn_function_key_struct, sizeof_clear_standalone_modifiers_struct,
        sizeof_add_standalone_modifier_struct] at hlt
      simp [dispatch, invalid_size_log, h, hlt, hn', op_connect, op_system_preferences_values_updated,
        op_set_caps_lock_led_state, op_clear_simple_modifications,
        op_add_simple_modification, op_clear_fn_function_keys, op_add_fn_function_key,
        op_clear_standalone_modifiers, op_add_standalone_modifier,
        sizeof_connect_struct, sizeof_system_preferences_values_updated_struct,
        sizeof_set_caps_lock_led_state_struct, sizeof_clear_simple_modifications_struct,
        sizeof_add_simple_modification_struct, sizeof_clear_fn_function_keys_struct,
        sizeof_add_fn_function_key_struct, sizeof_clear_standalone_modifiers_struct,
        sizeof_add_standalone_modifier_struct]
    · simp [struct_size, h, op_connect, op_system_preferences_values_updated,
        op_set_caps_lock_led_state, op_clear_simple_modifications,
        op_add_simple_modification, op_clear_fn_function_keys, op_add_fn_function_key,
        op_clear_standalone_modifiers, op_add_standalone_modifier,
        sizeof_connect_struct, sizeof_system_preferences_values_updated_struct,
        sizeof_set_caps_lock_led_state_struct, sizeof_clear_simple_modifications_struct,
        sizeof_add_simple_modification_struct, sizeof_clear_fn_function_keys_struct,
        sizeof_add_fn_function_key_struct, sizeof_clear_standalone_modifiers_struct,
        sizeof_add_standalone_modifier_struct] at hlt
      simp [dispatch, invalid_size_log, h, hlt, hn', op_connect, op_system_preferences_values_updated,
        op_set_caps_lock_led_state, op_clear_simple_modifications,
        op_add_simple_modification, op_clear_fn_function_keys, op_add_fn_function_key,
        op_clear_standalone_modifiers, op_add_standalone_modifier,
        sizeof_connect_struct, sizeof_system_preferences_values_updated_struct,
        sizeof_set_caps_lock_led_state_struct, sizeof_clear_simple_modifications_struct,
        sizeof_add_simple_modification_struct, sizeof_clear_fn_function_keys_struct,
        sizeof_add_fn_function_key_struct, sizeof_clear_standalone_modifiers_struct,
        sizeof_add_standalone_modifier_struct]
    · simp [struct_size, h, op_connect, op_system_preferences_values_updated,
        op_set_caps_lock_led_state, op_clear_simple_modifications,
        op_add_simple_modification, op_clear_fn_function_keys, op_add_fn_function_key,
        op_clear_standalone_modifiers, op_add_standalone_modifier,
        sizeof_connect_struct, sizeof_system_preferences_values_updated_struct,
        sizeof_set_caps_lock_led_state_struct, sizeof_clear_simple_modifications_struct,
        sizeof_add_simple_modification_struct, sizeof_clear_fn_function_keys_struct,
        sizeof_add_fn_function_key_struct, sizeof_clear_standalone_modifiers_struct,
        sizeof_add_standalone_modifier_struct] at hlt
      exact absurd hlt hn'
    · simp [struct_size, h, op_connect, op_system_preferences_values_updated,
        op_set_caps_lock_led_state, op_clear_simple_modifications,
        op_add_simple_modification, op_clear_fn_function_keys, op_add_fn_function_key,
        op_clear_standalone_modifiers, op_add_standalone_modifier,
        sizeof_connect_struct, sizeof_system_preferences_values_updated_struct,
        sizeof_set_caps_lock_led_state_struct, sizeof_clear_simple_modifications_struct,
        sizeof_add_simple_modification_struct, sizeof_clear_fn_function_keys_struct,
        sizeof_add_fn_function_key_struct, sizeof_clear_standalone_modifiers_struct,
        sizeof_add_standalone_modifier_struct] at hlt
      exact absurd hlt hn'
    · simp [struct_size, h, op_connect, op_system_preferences_values_updated,
        op_set_caps_lock_led_state, op_clear_simple_modifications,
        op_add_simple_modification, op_clear_fn_function_keys, op_add_fn_function_key,
        op_clear_standalone_modifiers, op_add_standalone_modifier,
        sizeof_connect_struct, sizeof_system_preferences_values_updated_struct,
        sizeof_set_caps_lock_led_state_struct, sizeof_clear_simple_modifications_struct,
        sizeof_add_simple_modification_struct, sizeof_clear_fn_function_keys_struct,
        sizeof_add_fn_function_key_struct, sizeof_clear_standalone_modifiers_struct,
        sizeof_add_standalone_modifier_struct] at hlt
      exact absurd hlt hn'
  refine ⟨hmain, ?_, ?_, ?_, ?_⟩ <;> rw [hmain] <;> rfl

/-- C6 witness: an `add_simple_modification` datagram of 3 bytes (struct
size 9) is dropped with exactly one logged error. -/
theorem dispatch_undersized_dropped_witness :
    (0 : Nat) < 3 ∧
    recognized_op op_add_simple_modification = true ∧
    3 < struct_size op_add_simple_modification ∧
    dispatch initReceiverState { n := 3, opcode := op_add_simple_modification } =
      log_error (invalid_size_log op_add_simple_modification) initReceiverState :=
  ⟨by decide, by decide, by decide,
    (dispatch_undersized_dropped initReceiverState
        { n := 3, opcode := op_add_simple_modification }
        (by decide) (by decide) (by decide)).1⟩

/-- C2: processing a well-formed console-user-server `connect` with pid `P`
invokes `grab_devices` exactly once and installs a fresh, unfired monitor
on `P`; a subsequently observed termination of `P` invokes `ungrab_devices`
exactly once, and a further observed termination invokes nothing more (the
monitor has fired and is inert). -/
theorem console_user_server_connect_lifecycle (s : ReceiverState) (P : Nat) :
    (step s (.receive (connectDatagram cf_console_user_server P))).device_grabber.grab_count
        = s.device_grabber.grab_count + 1 ∧
    (step s (.receive (connectDatagram cf_console_user_server P))).console_user_server_process_monitor
        = some { pid := P, fired := false } ∧
    (step (step s (.receive (connectDatagram cf_console_user_server P)))
        (.process_terminated P)).device_grabber.ungrab_count
        = (step s (.receive (connectDatagram cf_console_user_server P))).device_grabber.ungrab_count
            + 1 ∧
    step (step (step s (.receive (connectDatagram cf_console_user_server P)))
          (.process_terminated P))
        (.process_terminated P)
      = step (step s (.receive (connectDatagram cf_console_user_server P)))
          (.process_terminated P) := by
  refine ⟨?_, ?_, ?_, ?_⟩ <;>
    simp [step, dispatch, connectDatagram, apply_connect, grab_devices, ungrab_devices,
      console_user_server_exit_callback, cf_event_dispatcher, cf_console_user_server,
      op_connect, sizeof_connect_struct]

/-- C3: a second console-user-server `connect` with a different pid `Q`
destroys the monitor on `P` and installs a fresh one on `Q`; an observed
termination of `P` afterwards changes nothing — in particular it does not
ungrab the devices. -/
theorem second_connect_supersedes_monitor (s : ReceiverState) (P Q : Nat)
    (hPQ : P ≠ Q) :
    (step (step s (.receive (connectDatagram cf_console_user_server P)))
        (.receive (connectDatagram cf_console_user_server Q))).console_user_server_process_monitor
      = some { pid := Q, fired := false } ∧
    step (step (step s (.receive (connectDatagram cf_console_user_server P)))
          (.receive (connectDatagram cf_console_user_server Q)))
        (.process_terminated P)
      = step (step s (.receive (connectDatagram cf_console_user_server P)))
          (.receive (connectDatagram cf_console_user_server Q)) := by
  have hQP : Q ≠ P := Ne.symm hPQ
  refine ⟨?_, ?_⟩ <;>
    simp [step, dispatch, connectDatagram, apply_connect, grab_devices,
      console_user_server_exit_callback, cf_event_dispatcher, cf_console_user_server,
      op_connect, sizeof_connect_struct, hQP]

/-- C3 witness: a concrete run with pids 100 then 200. -/
theorem second_connect_supersedes_monitor_witness :
    (100 : Nat) ≠ 200 ∧
    ((step (step initReceiverState
          (.receive (connectDatagram cf_console_user_server 100)))
        (.receive (connectDatagram cf_console_user_server 200))).console_user_server_process_monitor
      = some { pid := 200, fired := false } ∧
    step (step (step initReceiverState
          (.receive (connectDatagram cf_console_user_server 100)))
          (.receive (connectDatagram cf_console_user_server 200)))
        (.process_terminated 100)
      = step (step initReceiverState
          (.receive (connectDatagram cf_console_user_server 100)))
          (.receive (connectDatagram cf_console_user_server 200))) :=
  ⟨by decide, second_connect_supersedes_monitor initReceiverState 100 200 (by decide)⟩

/-- C4: after any sequence of processed events, teardown removes the
listening endpoint, stops the dispatch loop and the server, destroys the
monitor, invokes `ungrab_devices` (once more than before), and leaves all
three rule tables empty. -/
theorem receiver_teardown_resets (es : List Event) :
    (receiver_teardown (run initReceiverState es)).socket_file_exists = false ∧
    (receiver_teardown (run initReceiverState es)).loop_running = false ∧
    (receiver_teardown (run initReceiverState es)).server_alive = false ∧
    (receiver_teardown (run initReceiverState es)).console_user_server_process_monitor = none ∧
    (receiver_teardown (run initReceiverState es)).device_grabber.grabbed = false ∧
    (receiver_teardown (run initReceiverState es)).device_grabber.ungrab_count
      = (run initReceiverState es).device_grabber.ungrab_count + 1 ∧
    (receiver_teardown (run initReceiverState es)).event_manipulator.simple_modifications = [] ∧
    (receiver_teardown (run initReceiverState es)).event_manipulator.fn_function_keys = [] ∧
    (receiver_teardown (run initReceiverState es)).event_manipulator.standalone_modifiers = [] := by
  refine ⟨?_, ?_, ?_, ?_, ?_, ?_, ?_, ?_, ?_⟩ <;>
    simp [receiver_teardown, ungrab_devices, apply_clear_simple_modifications,
      apply_clear_fn_function_keys, apply_clear_standalone_modifiers]

/-- C10: whatever call the client stub marshals, if the emitted datagram is
a `connect` message then the pid it carries is the calling process's own
(`getpid()`); no stub method can emit a connect carrying any other pid. -/
theorem grabber_client_connect_pid_is_self (self_pid : Nat) (c : GrabberClientCall)
    (h : (grabber_client_send self_pid c).opcode = op_connect) :
    (grabber_client_send self_pid c).pid = self_pid := by
  cases c <;>
    simp [grabber_client_send, op_connect, op_system_preferences_values_updated,
      op_set_caps_lock_led_state, op_clear_simple_modifications,
      op_add_simple_modification, op_clear_fn_function_keys, op_add_fn_function_key,
      op_clear_standalone_modifiers, op_add_standalone_modifier,
      sizeof_connect_struct, sizeof_system_preferences_values_updated_struct,
      sizeof_set_caps_lock_led_state_struct, sizeof_clear_simple_modifications_struct,
      sizeof_add_simple_modification_struct, sizeof_clear_fn_function_keys_struct,
      sizeof_add_fn_function_key_struct, sizeof_clear_standalone_modifiers_struct,
      sizeof_add_standalone_modifier_struct] at h ⊢

/-- C10 witness: a concrete `connect` call from pid 42 marshals pid 42. -/
theorem grabber_client_connect_pid_is_self_witness :
    (grabber_client_send 42 (.connect cf_console_user_server)).opcode = op_connect ∧
    (grabber_client_send 42 (.connect cf_console_user_server)).pid = 42 :=
  ⟨rfl, grabber_client_connect_pid_is_self 42 (.connect cf_console_user_server) rfl⟩

end Krbn

namespace Cfg

/-! ## Theorems about the profile store -/

/-- The object check in the selection loop is redundant relative to the
truthiness test: a non-object profile cannot have a truthy `selected`
member. -/
theorem isObject_and_truthy (p : Json) :
    (p.isObject && (p.get ("selected")).truthy) = (p.get ("selected")).truthy := by
  cases p <;> simp [Json.isObject, Json.get, Json.truthy]

/-- The selection loop is `List.find?` of the truthy-`selected` test. -/
theorem find_selected_profile_eq_find? (l : List Json) :
    find_selected_profile l = l.find? (fun p => (p.get ("selected")).truthy) := by
  induction l with
  | nil => rfl
  | cons p rest ih =>
      rw [find_selected_profile, List.find?]
      rw [isObject_and_truthy]
      cases hsel : (p.get ("selected")).truthy <;> simp [hsel, ih]

/-- C5: profile selection returns the first profile in stored list order
whose `selected` flag is truthy; when the document is unloaded (null), not
an object, has no `profiles` array, or no profile is selected, the
hard-coded default profile — named "Default profile", selected, with empty
simple modifications and the canonical twelve fn-function-key mappings
f1..f12 — is returned instead.  `get_current_profile` is pure: nothing is
written back. -/
theorem get_current_profile_selects_first_or_default (c : ConfigurationCore) :
    get_current_profile c = (spec_selected_profile c.json).getD get_default_profile ∧
    get_default_profile.get ("name") = Json.str "Default profile" ∧
    get_default_profile.get ("selected") = Json.bool true ∧
    get_default_profile.get ("simple_modifications") = Json.obj [] ∧
    get_default_profile.get ("fn_function_keys")
      = Json.obj [("f1", Json.str "vk_consumer_brightness_down"),
                  ("f2", Json.str "vk_consumer_brightness_up"),
                  ("f3", Json.str "vk_mission_control"),
                  ("f4", Json.str "vk_launchpad"),
                  ("f5", Json.str "vk_consumer_illumination_down"),
                  ("f6", Json.str "vk_consumer_illumination_up"),
                  ("f7", Json.str "vk_consumer_previous"),
                  ("f8", Json.str "vk_consumer_play"),
                  ("f9", Json.str "vk_consumer_next"),
                  ("f10", Json.str "mute"),
                  ("f11", Json.str "volume_down"),
                  ("f12", Json.str "volume_up")] := by
  refine ⟨?_, rfl, rfl, rfl, rfl⟩
  unfold get_current_profile spec_selected_profile
  by_cases hcond : (c.json.isObject && (c.json.get ("profiles")).isArray) = true
  · rw [if_pos hcond, if_pos hcond]
    have ha : (c.json.get ("profiles")).isArray = true := by
      simp [Bool.and_eq_true] at hcond
      exact hcond.2
    cases hp : c.json.get ("profiles") with
    | null => simp [Json.isArray, hp] at ha
    | bool b => simp [Json.isArray, hp] at ha
    | str s => simp [Json.isArray, hp] at ha
    | obj ms => simp [Json.isArray, hp] at ha
    | arr elems =>
        show (match find_selected_profile elems with
              | some p => p
              | none => get_default_profile)
            = (List.find? (fun p => (p.get ("selected")).truthy) elems).getD
                get_default_profile
        rw [find_selected_profile_eq_find?]
        cases hf : List.find? (fun p => (p.get ("selected")).truthy) elems <;>
          simp [hf]
  · rw [if_neg hcond, if_neg hcond]
    rfl

/-- C7: extracting a rule table from a key-name-to-key-name mapping object
yields exactly the pairs both of whose names resolve in the key-code
vocabulary, in order; every entry with an unresolvable name contributes one
warning naming the offending key and the file path and is skipped, and
processing continues. -/
theorem get_key_code_pairs_exact (c : ConfigurationCore)
    (entries : List (String × String)) :
    get_key_code_pair_from_json_object c
        (Json.obj (entries.map (fun e => (e.1, Json.str e.2))))
      = some
          (entries.filterMap (fun e =>
            match get_key_code e.1, get_key_code e.2 with
            | some f, some t => some (f, t)
            | _, _ => none),
           entries.filterMap (fun e =>
            match get_key_code e.1 with
            | none => some (unknown_key_code_log e.1 c.file_path)
            | some _ =>
              match get_key_code e.2 with
              | none => some (unknown_key_code_log e.2 c.file_path)
              | some _ => none)) := by
  induction entries with
  | nil => rfl
  | cons e rest ih =>
      simp only [get_key_code_pair_from_json_object] at ih
      simp only [get_key_code_pair_from_json_object, List.map_cons, key_code_pairs_loop, ih]
      cases h1 : get_key_code e.1 <;> cases h2 : get_key_code e.2 <;>
        simp [h1, h2, List.filterMap_cons]

/-- C8: when the selected profile's `fn_function_keys` member is absent or
not an object, the fn-function-key accessor falls back to the default
profile's table (the canonical twelve mappings, which all resolve), while
the simple-modification and standalone-modifier accessors still read the
selected profile unchanged. -/
theorem fn_function_keys_default_substitution (c : ConfigurationCore)
    (h : ((get_current_profile c).get ("fn_function_keys")).isObject = false) :
    get_current_profile_fn_function_keys c
        = get_key_code_pair_from_json_object c (get_default_profile.get ("fn_function_keys")) ∧
    get_current_profile_fn_function_keys c
        = some ([(58, 1001), (59, 1002), (60, 1003), (61, 1004), (62, 1005), (63, 1006),
                 (64, 1007), (65, 1008), (66, 1009), (67, 127), (68, 129), (69, 128)], []) ∧
    get_current_profile_simple_modifications c
        = get_key_code_pair_from_json_object c
            ((get_current_profile c).get ("simple_modifications")) ∧
    get_current_profile_standalone_modifiers c
        = get_key_code_pair_from_json_object c
            ((get_current_profile c).get ("standalone_modifiers")) := by
  refine ⟨?_, ?_, rfl, rfl⟩
  · unfold get_current_profile_fn_function_keys
    simp [h]
  · unfold get_current_profile_fn_function_keys
    simp only [h, Bool.false_eq_true, if_false]
    rfl

/-- C8 witness: a document whose selected profile has no `fn_function_keys`
member gets the default's twelve resolved mappings. -/
theorem fn_function_keys_default_substitution_witness :
    ((get_current_profile
        { loaded := true,
          json := Json.obj [("profiles", Json.arr [Json.obj [("selected", Json.bool true)]])],
          file_path := "karabiner.json" }).get ("fn_function_keys")).isObject = false ∧
    get_current_profile_fn_function_keys
        { loaded := true,
          json := Json.obj [("profiles", Json.arr [Json.obj [("selected", Json.bool true)]])],
          file_path := "karabiner.json" }
      = some ([(58, 1001), (59, 1002), (60, 1003), (61, 1004), (62, 1005), (63, 1006),
               (64, 1007), (65, 1008), (66, 1009), (67, 127), (68, 129), (69, 128)], []) :=
  ⟨rfl,
    (fn_function_keys_default_substitution
        { loaded := true,
          json := Json.obj [("profiles", Json.arr [Json.obj [("selected", Json.bool true)]])],
          file_path := "karabiner.json" } rfl).2.1⟩

end Cfg

namespace Cfg

/-! ## Round-trip of the JSON codec -/

theorem skipWs_cons_of_ws {c : Char} (l : List Char) (h : wsChar c = true) :
    skipWs (c :: l) = skipWs l := by
  simp [skipWs, h]

theorem skipWs_cons_of_not_ws {c : Char} (l : List Char) (h : wsChar c = false) :
    skipWs (c :: l) = c :: l := by
  simp [skipWs, h]

theorem skipWs_append_of_ws (pre l : List Char) (h : ∀ c ∈ pre, wsChar c = true) :
    skipWs (pre ++ l) = skipWs l := by
  induction pre with
  | nil => rfl
  | cons c rest ih =>
      rw [List.cons_append, skipWs_cons_of_ws _ (h c (by simp))]
      exact ih (fun d hd => h d (by simp [hd]))

theorem skipWs_spaces (n : Nat) (l : List Char) : skipWs (spaces n ++ l) = skipWs l := by
  refine skipWs_append_of_ws _ _ (fun c hc => ?_)
  simp only [spaces, List.mem_replicate] at hc
  rw [hc.2]
  decide

theorem skipWs_idem (l : List Char) : skipWs (skipWs l) = skipWs l := by
  induction l with
  | nil => rfl
  | cons c rest ih =>
      by_cases h : wsChar c = true
      · rw [skipWs_cons_of_ws _ h, ih]
      · have h' : wsChar c = false := by revert h; cases wsChar c <;> simp
        rw [skipWs_cons_of_not_ws _ h', skipWs_cons_of_not_ws _ h']

theorem parseStringBody_escape (l : List Char) (rest : List Char) :
    parseStringBody (escapeChars l ++ '"' :: rest) = some (l, rest) := by
  induction l with
  | nil =>
      show parseStringBody ('"' :: rest) = some ([], rest)
      rw [parseStringBody.eq_def]
      simp
  | cons c cs ih =>
      by_cases h : (c = '"' || c = '\\') = true
      · simp only [escapeChars, h, if_true, List.cons_append]
        rw [parseStringBody.eq_def]
        simp [ih]
      · have h1 : ¬ c = '"' := by
          intro hc
          rw [hc] at h
          simp at h
        have h2 : ¬ c = '\\' := by
          intro hc
          rw [hc] at h
          simp at h
        simp only [escapeChars, h, if_false, List.cons_append]
        rw [parseStringBody.eq_def]
        simp [h1, h2, ih]

theorem string_mk_data (s : String) : String.mk s.data = s := by
  cases s
  rfl

/-- Induction over `Json` values with inductive hypotheses for the elements
of nested arrays and the member values of nested objects. -/
theorem Json.induction_mem (P : Json → Prop)
    (hnull : P .null) (hbool : ∀ b, P (.bool b)) (hstr : ∀ s, P (.str s))
    (harr : ∀ xs, (∀ x ∈ xs, P x) → P (.arr xs))
    (hobj : ∀ ms, (∀ m ∈ ms, P m.2) → P (.obj ms)) (j : Json) : P j := by
  have key : ∀ n (j : Json), sizeOf j ≤ n → P j := by
    intro n
    induction n with
    | zero =>
        intro j hj
        cases j <;> simp at hj
    | succ n ih =>
        intro j hj
        cases j with
        | null => exact hnull
        | bool b => exact hbool b
        | str s => exact hstr s
        | arr xs =>
            refine harr xs (fun x hx => ih x ?_)
            have hlt := List.sizeOf_lt_of_mem hx
            simp only [Json.arr.sizeOf_spec] at hj
            omega
        | obj ms =>
            refine hobj ms (fun m hm => ih m.2 ?_)
            have hlt := List.sizeOf_lt_of_mem hm
            have hm2 : sizeOf m.2 < sizeOf m := by
              obtain ⟨a, b⟩ := m
              simp only [Prod.mk.sizeOf_spec]
              omega
            simp only [Json.obj.sizeOf_spec] at hj
            omega
  exact key (sizeOf j) j le_rfl

/-- Every printed value starts with a non-whitespace character that is
neither a closing bracket, a closing brace nor a comma. -/
theorem ppValue_head (ind : Nat) (j : Json) :
    ∃ c tl, ppValue ind j = c :: tl ∧ wsChar c = false ∧
      c ≠ ']' ∧ c ≠ '}' ∧ c ≠ ',' := by
  cases j with
  | null =>
      refine ⟨'n', ['u', 'l', 'l'], ?_, by decide, by decide, by decide, by decide⟩
      simp [ppValue]
  | bool b =>
      cases b with
      | false =>
          refine ⟨'f', ['a', 'l', 's', 'e'], ?_, by decide, by decide, by decide, by decide⟩
          simp [ppValue]
      | true =>
          refine ⟨'t', ['r', 'u', 'e'], ?_, by decide, by decide, by decide, by decide⟩
          simp [ppValue]
  | str s =>
      refine ⟨'"', escapeChars s.data ++ ['"'], ?_, by decide, by decide, by decide, by decide⟩
      simp [ppValue]
  | arr xs =>
      cases xs with
      | nil =>
          refine ⟨'[', [']'], ?_, by decide, by decide, by decide, by decide⟩
          simp [ppValue]
      | cons x rest =>
          refine ⟨'[', '\n' :: (ppElems (ind + 4) x rest ++ '\n' :: (spaces ind ++ [']'])),
            ?_, by decide, by decide, by decide, by decide⟩
          simp [ppValue]
  | obj ms =>
      cases ms with
      | nil =>
          refine ⟨'{', ['}'], ?_, by decide, by decide, by decide, by decide⟩
          simp [ppValue]
      | cons m rest =>
          refine ⟨'{', '\n' :: (ppMembers (ind + 4) m rest ++ '\n' :: (spaces ind ++ ['}'])),
            ?_, by decide, by decide, by decide, by decide⟩
          simp [ppValue]

/-- `skipWs` leaves a printed value alone. -/
theorem skipWs_ppValue (ind : Nat) (j : Json) (rest : List Char) :
    skipWs (ppValue ind j ++ rest) = ppValue ind j ++ rest := by
  obtain ⟨c, tl, hpp, hws, _, _, _⟩ := ppValue_head ind j
  rw [hpp, List.cons_append, skipWs_cons_of_not_ws _ hws]

end Cfg

namespace Cfg

theorem one_le_jsonFuel (j : Json) : 1 ≤ jsonFuel j := by
  cases j <;> simp [jsonFuel]

/-- Parsing the printed elements of a non-empty array consumes them all, up
to and past the closing bracket, given the round-trip property of each
element. -/
theorem parseArrayElems_ppElems :
    ∀ (xs : List Json) (x : Json) (ind fuel : Nat) (L tail rest : List Char),
      (∀ e ∈ x :: xs, ∀ (fuel' ind' : Nat) (L' rest' : List Char), jsonFuel e ≤ fuel' →
        skipWs L' = ppValue ind' e ++ rest' → parseValue fuel' L' = some (e, rest')) →
      elemsFuel (x :: xs) ≤ fuel →
      skipWs L = skipWs (ppElems ind x xs ++ tail) →
      skipWs tail = ']' :: rest →
      parseArrayElems fuel L = some (x :: xs, rest) := by
  intro xs
  induction xs with
  | nil =>
      intro x ind fuel L tail rest hIH hf hL htail
      simp only [elemsFuel] at hf
      obtain ⟨g, rfl⟩ : ∃ g, fuel = g + 1 := ⟨fuel - 1, by omega⟩
      have hL' : skipWs L = ppValue ind x ++ tail := by
        rw [hL]
        have hsplit : ppElems ind x [] ++ tail = spaces ind ++ (ppValue ind x ++ tail) := by
          simp [ppElems, List.append_assoc]
        rw [hsplit, skipWs_spaces, skipWs_ppValue]
      have hx := hIH x (List.mem_cons_self x []) g ind L tail (by omega) hL'
      rw [parseArrayElems.eq_def]
      simp only []
      rw [hx]
      simp only []
      rw [htail]
      rfl
  | cons y ys ihB =>
      intro x ind fuel L tail rest hIH hf hL htail
      simp only [elemsFuel] at hf
      have h1x := one_le_jsonFuel x
      obtain ⟨g, rfl⟩ : ∃ g, fuel = g + 1 := ⟨fuel - 1, by omega⟩
      have hL' : skipWs L = ppValue ind x ++ (',' :: '\n' :: (ppElems ind y ys ++ tail)) := by
        rw [hL]
        have hsplit : ppElems ind x (y :: ys) ++ tail
            = spaces ind ++ (ppValue ind x ++ (',' :: '\n' :: (ppElems ind y ys ++ tail))) := by
          simp [ppElems, List.append_assoc]
        rw [hsplit, skipWs_spaces, skipWs_ppValue]
      have hx := hIH x (List.mem_cons_self x (y :: ys)) g ind L
        (',' :: '\n' :: (ppElems ind y ys ++ tail)) (by omega) hL'
      have hrec := ihB y ind g ('\n' :: (ppElems ind y ys ++ tail)) tail rest
        (fun e he => hIH e (List.mem_cons_of_mem x he))
        (by simp only [elemsFuel] at hf ⊢; omega)
        (by rw [skipWs_cons_of_ws _ (by decide)])
        htail
      rw [parseArrayElems.eq_def]
      simp only []
      rw [hx]
      simp only []
      rw [skipWs_cons_of_not_ws _ (by decide)]
      simp [hrec]

/-- Parsing the printed members of a non-empty object consumes them all, up
to and past the closing brace, given the round-trip property of each member
value. -/
theorem parseObjectMembers_ppMembers :
    ∀ (ms : List (String × Json)) (m : String × Json) (ind fuel : Nat)
      (L tail rest : List Char),
      (∀ e ∈ m :: ms, ∀ (fuel' ind' : Nat) (L' rest' : List Char), jsonFuel e.2 ≤ fuel' →
        skipWs L' = ppValue ind' e.2 ++ rest' → parseValue fuel' L' = some (e.2, rest')) →
      membersFuel (m :: ms) ≤ fuel →
      skipWs L = skipWs (ppMembers ind m ms ++ tail) →
      skipWs tail = '}' :: rest →
      parseObjectMembers fuel L = some (m :: ms, rest) := by
  intro ms
  induction ms with
  | nil =>
      intro m ind fuel L tail rest hIH hf hL htail
      simp only [membersFuel] at hf
      obtain ⟨g, rfl⟩ : ∃ g, fuel = g + 1 := ⟨fuel - 1, by omega⟩
      have hL' : skipWs L
          = '"' :: (escapeChars m.1.data ++ '"' :: ':' :: ' ' :: (ppValue ind m.2 ++ tail)) := by
        rw [hL]
        have hsplit : ppMembers ind m [] ++ tail
            = spaces ind
              ++ ('"' :: (escapeChars m.1.data ++ '"' :: ':' :: ' ' :: (ppValue ind m.2 ++ tail))) := by
          simp [ppMembers, List.append_assoc]
        rw [hsplit, skipWs_spaces, skipWs_cons_of_not_ws _ (by decide)]
      have hval := hIH m (List.mem_cons_self m []) g ind
        (' ' :: (ppValue ind m.2 ++ tail)) tail (by omega)
        (by rw [skipWs_cons_of_ws _ (by decide), skipWs_ppValue])
      rw [parseObjectMembers.eq_def]
      simp only []
      rw [hL']
      simp only [parseStringBody_escape]
      rw [skipWs_cons_of_not_ws _ (by decide)]
      simp only []
      rw [hval]
      simp only []
      rw [htail]
      simp [string_mk_data]
  | cons y ys ihB =>
      intro m ind fuel L tail rest hIH hf hL htail
      simp only [membersFuel] at hf
      have h1x := one_le_jsonFuel m.2
      obtain ⟨g, rfl⟩ : ∃ g, fuel = g + 1 := ⟨fuel - 1, by omega⟩
      have hL' : skipWs L
          = '"' :: (escapeChars m.1.data ++ '"' :: ':' :: ' '
              :: (ppValue ind m.2 ++ (',' :: '\n' :: (ppMembers ind y ys ++ tail)))) := by
        rw [hL]
        have hsplit : ppMembers ind m (y :: ys) ++ tail
            = spaces ind
              ++ ('"' :: (escapeChars m.1.data ++ '"' :: ':' :: ' '
                  :: (ppValue ind m.2 ++ (',' :: '\n' :: (ppMembers ind y ys ++ tail))))) := by
          simp [ppMembers, List.append_assoc]
        rw [hsplit, skipWs_spaces, skipWs_cons_of_not_ws _ (by decide)]
      have hval := hIH m (List.mem_cons_self m (y :: ys)) g ind
        (' ' :: (ppValue ind m.2 ++ (',' :: '\n' :: (ppMembers ind y ys ++ tail))))
        (',' :: '\n' :: (ppMembers ind y ys ++ tail)) (by omega)
        (by rw [skipWs_cons_of_ws _ (by decide), skipWs_ppValue])
      have hrec := ihB y ind g ('\n' :: (ppMembers ind y ys ++ tail)) tail rest
        (fun e he => hIH e (List.mem_cons_of_mem m he))
        (by simp only [membersFuel] at hf ⊢; omega)
        (by rw [skipWs_cons_of_ws _ (by decide)])
        htail
      rw [parseObjectMembers.eq_def]
      simp only []
      rw [hL']
      simp only [parseStringBody_escape]
      rw [skipWs_cons_of_not_ws _ (by decide)]
      simp only []
      rw [hval]
      simp only []
      rw [skipWs_cons_of_not_ws _ (by decide)]
      simp [hrec, string_mk_data]

end Cfg

namespace Cfg

/-- A printed element list is its indentation, its first element, and a
remainder. -/
theorem ppElems_decomp (ind : Nat) (x : Json) (xs : List Json) (tail : List Char) :
    ∃ R, ppElems ind x xs ++ tail = spaces ind ++ (ppValue ind x ++ R) := by
  cases xs with
  | nil => exact ⟨tail, by simp [ppElems, List.append_assoc]⟩
  | cons y ys =>
      exact ⟨',' :: '\n' :: (ppElems ind y ys ++ tail), by simp [ppElems, List.append_assoc]⟩

/-- A printed member list is its indentation, an opening quote, and a
remainder. -/
theorem ppMembers_decomp (ind : Nat) (m : String × Json) (ms : List (String × Json))
    (tail : List Char) :
    ∃ R, ppMembers ind m ms ++ tail = spaces ind ++ ('"' :: R) := by
  cases ms with
  | nil =>
      exact ⟨escapeChars m.1.data ++ '"' :: ':' :: ' ' :: (ppValue ind m.2 ++ tail),
        by simp [ppMembers, List.append_assoc]⟩
  | cons y ys =>
      exact ⟨escapeChars m.1.data ++ '"' :: ':' :: ' '
          :: (ppValue ind m.2 ++ (',' :: '\n' :: (ppMembers ind y ys ++ tail))),
        by simp [ppMembers, List.append_assoc]⟩

/-- Round trip of one value: parsing any text whose whitespace-stripped form
is the pretty-printed value followed by `rest` returns exactly that value
and `rest`, for any sufficient fuel. -/
theorem parseValue_ppValue (j : Json) :
    ∀ (fuel ind : Nat) (L rest : List Char), jsonFuel j ≤ fuel →
      skipWs L = ppValue ind j ++ rest →
      parseValue fuel L = some (j, rest) := by
  induction j using Json.induction_mem with
  | hnull =>
      intro fuel ind L rest hf hL
      obtain ⟨g, rfl⟩ : ∃ g, fuel = g + 1 :=
        ⟨fuel - 1, by have := one_le_jsonFuel Json.null; omega⟩
      rw [parseValue.eq_def]
      simp only []
      rw [hL]
      simp [ppValue]
  | hbool b =>
      intro fuel ind L rest hf hL
      obtain ⟨g, rfl⟩ : ∃ g, fuel = g + 1 :=
        ⟨fuel - 1, by have := one_le_jsonFuel (Json.bool b); omega⟩
      rw [parseValue.eq_def]
      simp only []
      rw [hL]
      cases b <;> simp [ppValue]
  | hstr s =>
      intro fuel ind L rest hf hL
      obtain ⟨g, rfl⟩ : ∃ g, fuel = g + 1 :=
        ⟨fuel - 1, by have := one_le_jsonFuel (Json.str s); omega⟩
      rw [parseValue.eq_def]
      simp only []
      rw [hL]
      simp [ppValue, parseStringBody_escape, string_mk_data]
  | harr xs IH =>
      intro fuel ind L rest hf hL
      obtain ⟨g, rfl⟩ : ∃ g, fuel = g + 1 :=
        ⟨fuel - 1, by have := one_le_jsonFuel (Json.arr xs); omega⟩
      rw [parseValue.eq_def]
      simp only []
      rw [hL]
      cases xs with
      | nil => simp [ppValue, skipWs, wsChar]
      | cons x xs' =>
          have hjf : elemsFuel (x :: xs') ≤ g := by
            simp only [jsonFuel] at hf
            omega
          have harr_pp : ppValue ind (Json.arr (x :: xs')) ++ rest
              = '[' :: '\n'
                :: (ppElems (ind + 4) x xs' ++ ('\n' :: (spaces ind ++ (']' :: rest)))) := by
            simp [ppValue, List.append_assoc]
          rw [harr_pp]
          simp only []
          obtain ⟨R, hR⟩ :=
            ppElems_decomp (ind + 4) x xs' ('\n' :: (spaces ind ++ (']' :: rest)))
          obtain ⟨c, tl, hpp, hws, hc1, hc2, hc3⟩ := ppValue_head (ind + 4) x
          have hscrut : skipWs
              ('\n' :: (ppElems (ind + 4) x xs' ++ ('\n' :: (spaces ind ++ (']' :: rest)))))
              = c :: (tl ++ R) := by
            rw [skipWs_cons_of_ws _ (by decide), hR, skipWs_spaces, hpp, List.cons_append,
              skipWs_cons_of_not_ws _ hws]
          rw [hscrut]
          split
          · rename_i heq
            rw [List.cons.injEq] at heq
            exact absurd heq.1 hc1
          · have hcall : parseArrayElems g (c :: (tl ++ R)) = some (x :: xs', rest) := by
              refine parseArrayElems_ppElems xs' x (ind + 4) g (c :: (tl ++ R))
                ('\n' :: (spaces ind ++ (']' :: rest))) rest IH hjf ?_ ?_
              · rw [skipWs_cons_of_not_ws _ hws, hR, skipWs_spaces, hpp,
                  List.cons_append, skipWs_cons_of_not_ws _ hws]
              · rw [skipWs_cons_of_ws _ (by decide), skipWs_spaces,
                  skipWs_cons_of_not_ws _ (by decide)]
            rw [hcall]
            rfl
  | hobj ms IH =>
      intro fuel ind L rest hf hL
      obtain ⟨g, rfl⟩ : ∃ g, fuel = g + 1 :=
        ⟨fuel - 1, by have := one_le_jsonFuel (Json.obj ms); omega⟩
      rw [parseValue.eq_def]
      simp only []
      rw [hL]
      cases ms with
      | nil => simp [ppValue, skipWs, wsChar]
      | cons m ms' =>
          have hjf : membersFuel (m :: ms') ≤ g := by
            simp only [jsonFuel] at hf
            omega
          have hobj_pp : ppValue ind (Json.obj (m :: ms')) ++ rest
              = '{' :: '\n'
                :: (ppMembers (ind + 4) m ms' ++ ('\n' :: (spaces ind ++ ('}' :: rest)))) := by
            simp [ppValue, List.append_assoc]
          rw [hobj_pp]
          simp only []
          obtain ⟨R, hR⟩ :=
            ppMembers_decomp (ind + 4) m ms' ('\n' :: (spaces ind ++ ('}' :: rest)))
          have hscrut : skipWs
              ('\n' :: (ppMembers (ind + 4) m ms' ++ ('\n' :: (spaces ind ++ ('}' :: rest)))))
              = '"' :: R := by
            rw [skipWs_cons_of_ws _ (by decide), hR, skipWs_spaces,
              skipWs_cons_of_not_ws _ (by decide)]
          rw [hscrut]
          split
          · rename_i heq
            rw [List.cons.injEq] at heq
            exact absurd heq.1 (by decide)
          · have hcall : parseObjectMembers g ('"' :: R) = some (m :: ms', rest) := by
              refine parseObjectMembers_ppMembers ms' m (ind + 4) g ('"' :: R)
                ('\n' :: (spaces ind ++ ('}' :: rest))) rest IH hjf ?_ ?_
              · rw [skipWs_cons_of_not_ws _ (by decide), hR, skipWs_spaces,
                  skipWs_cons_of_not_ws _ (by decide)]
              · rw [skipWs_cons_of_ws _ (by decide), skipWs_spaces,
                  skipWs_cons_of_not_ws _ (by decide)]
            rw [hcall]
            rfl

end Cfg

namespace Cfg

/-- The parser fuel a value needs is below its printed length. -/
theorem jsonFuel_lt_ppValue_length (j : Json) :
    ∀ ind, jsonFuel j + 1 ≤ (ppValue ind j).length := by
  induction j using Json.induction_mem with
  | hnull => intro ind; simp [jsonFuel, ppValue]
  | hbool b => intro ind; cases b <;> simp [jsonFuel, ppValue]
  | hstr s => intro ind; simp [jsonFuel, ppValue]
  | harr xs IH =>
      intro ind
      cases xs with
      | nil => simp [jsonFuel, elemsFuel, ppValue]
      | cons x xs' =>
          have inner : ∀ (ys : List Json) (y : Json),
              (∀ e ∈ y :: ys, ∀ ind', jsonFuel e + 1 ≤ (ppValue ind' e).length) →
              ∀ ind', elemsFuel (y :: ys) ≤ (ppElems ind' y ys).length := by
            intro ys
            induction ys with
            | nil =>
                intro y hIH ind'
                have h1 := hIH y (List.mem_cons_self y []) ind'
                simp only [elemsFuel, ppElems, List.length_append, spaces,
                  List.length_replicate]
                omega
            | cons z zs ihI =>
                intro y hIH ind'
                have h1 := hIH y (List.mem_cons_self y (z :: zs)) ind'
                have h2 := ihI z (fun e he => hIH e (List.mem_cons_of_mem y he)) ind'
                simp only [elemsFuel] at h2 ⊢
                simp only [ppElems, List.length_append, List.length_cons, spaces,
                  List.length_replicate]
                omega
          have hx := inner xs' x IH (ind + 4)
          simp only [jsonFuel, ppValue, List.length_cons, List.length_append, spaces,
            List.length_replicate]
          omega
  | hobj ms IH =>
      intro ind
      cases ms with
      | nil => simp [jsonFuel, membersFuel, ppValue]
      | cons m ms' =>
          have inner : ∀ (ys : List (String × Json)) (y : String × Json),
              (∀ e ∈ y :: ys, ∀ ind', jsonFuel e.2 + 1 ≤ (ppValue ind' e.2).length) →
              ∀ ind', membersFuel (y :: ys) ≤ (ppMembers ind' y ys).length := by
            intro ys
            induction ys with
            | nil =>
                intro y hIH ind'
                have h1 := hIH y (List.mem_cons_self y []) ind'
                simp only [membersFuel, ppMembers, List.length_append, List.length_cons,
                  spaces, List.length_replicate]
                omega
            | cons z zs ihI =>
                intro y hIH ind'
                have h1 := hIH y (List.mem_cons_self y (z :: zs)) ind'
                have h2 := ihI z (fun e he => hIH e (List.mem_cons_of_mem y he)) ind'
                simp only [membersFuel] at h2 ⊢
                simp only [ppMembers, List.length_append, List.length_cons, spaces,
                  List.length_replicate]
                omega
          have hx := inner ms' m IH (ind + 4)
          simp only [jsonFuel, ppValue, List.length_cons, List.length_append, spaces,
            List.length_replicate]
          omega

/-- Parsing the saved text of any document value returns that exact value. -/
theorem parseJson_pp (j : Json) :
    parseJson (String.mk (ppValue 0 j ++ ['\n'])) = some j := by
  unfold parseJson
  have hdata : (String.mk (ppValue 0 j ++ ['\n'])).data = ppValue 0 j ++ ['\n'] := rfl
  rw [hdata]
  have hlen := jsonFuel_lt_ppValue_length j 0
  have hp := parseValue_ppValue j ((ppValue 0 j ++ ['\n']).length + 1) 0
      (ppValue 0 j ++ ['\n']) ['\n']
      (by simp only [List.length_append, List.length_cons, List.length_nil]; omega)
      (skipWs_ppValue 0 j ['\n'])
  rw [hp]
  simp [skipWs, wsChar]

/-- C9: saving a store and constructing a fresh one from the written text
reproduces the very same document value (`loaded` set, identical `json_`):
the pretty-printed encode followed by parse round-trips, and formatting is
the only thing the rewrite can change. -/
theorem save_then_load_round_trips (c : ConfigurationCore) :
    configuration_core_load c.file_path (some (save_output c))
      = { loaded := true, json := c.json, file_path := c.file_path } := by
  unfold configuration_core_load save_output
  simp only []
  rw [parseJson_pp]

end Cfg
